import Mathlib

/-!
Shallow embedding of the userbase server user controller
(`src/userbase-server/user.js`): the data model of user, session and
billing records, and the operations the verified claims are about —
password validation with its lockout state machine, key-possession
validation, sign-up / sign-in / sign-out, and the Stripe subscription
reconciler.  Dates are modelled as integer milliseconds since the epoch
(JavaScript `Date` arithmetic), DynamoDB items as Lean structures with
`Option` fields for attributes that may be absent, and the conditional
writes of DynamoDB as explicit guards over the current stored item.
-/

namespace Userbase

/-- Digest values of SHA-256: the code only ever compares digests for equality, so the
hash is modelled as an injective tag on the input string. -/
structure Hash where
  digest : String
deriving Repr, DecidableEq

/-- Models crypto.sha256.hash on the password token string. -/
def sha256hash (s : String) : Hash :=
  ⟨s⟩

/-- Source constant MS_IN_A_DAY = 1000 * 60 * 60 * 24 from the source constants. -/
def MS_IN_A_DAY : Int := 1000 * 60 * 60 * 24

/-- Source constant MAX_INCORRECT_PASSWORD_GUESSES = 25 from the source constants. -/
def MAX_INCORRECT_PASSWORD_GUESSES : Nat := 25

/-- Source constant MAX_USERNAME_CHAR_LENGTH = 100 from the source constants. -/
def MAX_USERNAME_CHAR_LENGTH : Nat := 100

/-- Source constant MAX_PROFILE_OBJECT_KEY_CHAR_LENGTH = 20 from the source constants. -/
def MAX_PROFILE_OBJECT_KEY_CHAR_LENGTH : Nat := 20

/-- Source constant MAX_PROFILE_OBJECT_VALUE_CHAR_LENGTH = 1000 from the source constants. -/
def MAX_PROFILE_OBJECT_VALUE_CHAR_LENGTH : Nat := 1000

/-- Source constant MAX_PROFILE_OBJECT_KEYS = 100 from the source constants. -/
def MAX_PROFILE_OBJECT_KEYS : Nat := 100

/-- Source constant LIMIT_NUM_TRIAL_USERS = 3 from the source constants. -/
def LIMIT_NUM_TRIAL_USERS : Nat := 3

/-- The per-environment Stripe billing attributes of a user record.  In the
DynamoDB item these are stored twice under a test- and a prod- attribute
name; here each environment owns one copy of this group. -/
structure StripeFields where
  stripeCustomerId : Option String := none
  subscriptionId : Option String := none
  subscriptionPlanId : Option String := none
  subscriptionStatus : Option String := none
  cancelSubscriptionAt : Option String := none
  stripeEventTimestamp : Option Int := none
deriving Repr, DecidableEq

/-- A user item of the users table, keyed by (username, app-id).  Fields that
the code reads with a truthiness test on a possibly absent attribute are
`Option`; `deleted` models the presence of the soft-delete marker. -/
structure UserRecord where
  username : String
  appId : String
  userId : String
  passwordTokenHash : Hash
  passwordSalt : String := ""
  passwordTokenSalt : String := ""
  publicKey : String := ""
  encryptionKeySalt : String := ""
  dhKeySalt : String := ""
  hmacKeySalt : String := ""
  seedNotSavedYet : Bool := true
  creationDate : Int := 0
  passwordBasedEncryptionKeySalt : Option String := none
  passwordEncryptedSeed : Option String := none
  email : Option String := none
  profile : Option (List (String × String)) := none
  protectedProfile : Option (List (String × String)) := none
  tempPasswordTokenHash : Option Hash := none
  tempPasswordCreationDate : Int := 0
  incorrectPasswordAttemptsInRow : Option Nat := none
  suspendedAt : Option Int := none
  deleted : Bool := false
  testStripe : StripeFields := {}
  prodStripe : StripeFields := {}
deriving Repr, DecidableEq

/-- The distinct failures _validatePassword can throw. -/
inductive PasswordFailure where
  | userDoesNotExist
  | passwordAttemptLimitExceeded (delay : String)
  | incorrectPassword
  | tempPasswordExpired
deriving Repr, DecidableEq

/-- The fire-and-forget update of _allowUserToRetryPassword: REMOVE
suspended-at, SET incorrect-password-attempts-in-a-row to 0. -/
def allowUserToRetryPassword (u : UserRecord) : UserRecord :=
  { u with suspendedAt := none, incorrectPasswordAttemptsInRow := some 0 }

/-- The fire-and-forget update of _suspendUser: SET suspended-at to now. -/
def suspendUser (u : UserRecord) (now : Int) : UserRecord :=
  { u with suspendedAt := some now }

/-- The fire-and-forget update of _incrementIncorrectPasswordAttempt: ADD 1
to incorrect-password-attempts-in-a-row (DynamoDB ADD starts an absent
attribute at 0). -/
def incrementIncorrectPasswordAttempt (u : UserRecord) : UserRecord :=
  { u with
    incorrectPasswordAttemptsInRow := some (u.incorrectPasswordAttemptsInRow.getD 0 + 1) }

/-- The hash comparison tail of _validatePassword, after the lockout gate:
compare the supplied token hash with the stored password token hash, fall
back to the temp password token, reject an expired temp password.  Returns
the thrown failure or the used-temp-password flag, together with the stored
record after the fire-and-forget bookkeeping writes. -/
def checkPasswordHashes (passwordToken : String) (u : UserRecord) (now : Int) :
    Except PasswordFailure Bool × UserRecord :=
  let passwordTokenHash := sha256hash passwordToken
  if passwordTokenHash = u.passwordTokenHash then
    (Except.ok false, allowUserToRetryPassword u)
  else
    let tempPasswordIsCorrect : Bool :=
      match u.tempPasswordTokenHash with
      | some th => passwordTokenHash = th
      | none => false
    if tempPasswordIsCorrect then
      if now - u.tempPasswordCreationDate > MS_IN_A_DAY then
        (Except.error PasswordFailure.tempPasswordExpired,
          incrementIncorrectPasswordAttempt u)
      else
        (Except.ok true, u)
    else
      (Except.error PasswordFailure.incorrectPassword,
        incrementIncorrectPasswordAttempt u)

/-- Model of _validatePassword: the lockout state machine followed by the hash
comparison.  The first component is the outcome thrown or returned to the
caller, the second the stored user record after the fire-and-forget
bookkeeping writes have landed.  A JavaScript comparison of an absent
attempts attribute with the limit is false, modelled by getD 0. -/
def validatePassword (passwordToken : String) (user : Option UserRecord)
    (now : Int) : Except PasswordFailure Bool × Option UserRecord :=
  match user with
  | none => (Except.error PasswordFailure.userDoesNotExist, none)
  | some u =>
    if u.incorrectPasswordAttemptsInRow.getD 0 ≥ MAX_INCORRECT_PASSWORD_GUESSES then
      match u.suspendedAt with
      | none =>
        (Except.error (PasswordFailure.passwordAttemptLimitExceeded "24 hours"),
          some (suspendUser u now))
      | some dateSuspended =>
        if now - dateSuspended < MS_IN_A_DAY then
          (Except.error (PasswordFailure.passwordAttemptLimitExceeded "24 hours"),
            some u)
        else
          let r := checkPasswordHashes passwordToken (allowUserToRetryPassword u) now
          (r.1, some r.2)
    else
      let r := checkPasswordHashes passwordToken u now
      (r.1, some r.2)

/-- An admin item, reduced to the attributes read by this controller.
prodPaymentsEnabled records the value of the external
adminController.prodPaymentsEnabled predicate on this admin, a collaborator
lookup outside this controller. -/
structure AdminRecord where
  adminId : String
  deleted : Bool := false
  stripeAccountId : Option String := none
  prodPaymentsEnabled : Bool := true
  stripeSaasSubscriptionStatus : Option String := none
  stripeCancelSaasSubscriptionAt : Option String := none
deriving Repr, DecidableEq

/-- An app item, reduced to the attributes read by this controller. -/
structure AppRecord where
  appId : String
  adminId : String
  deleted : Bool := false
  paymentsMode : Option String := none
  testSubscriptionPlanId : Option String := none
  prodSubscriptionPlanId : Option String := none
deriving Repr, DecidableEq

/-- Selects the Stripe attribute group of the payment environment the event
addresses, following the prod- or test- attribute name choice in the code. -/
def stripeFieldsOf (u : UserRecord) (isProduction : Bool) : StripeFields :=
  if isProduction then u.prodStripe else u.testStripe

/-- Writes back the Stripe attribute group of the chosen environment. -/
def setStripeFields (u : UserRecord) (isProduction : Bool) (f : StripeFields) :
    UserRecord :=
  if isProduction then { u with prodStripe := f } else { u with testStripe := f }

/-- An incoming Stripe subscription event, after the webhook has unpacked
customer id, subscription id, plan id, status, cancel-at and the provider
event timestamp. -/
structure SubscriptionEvent where
  customerId : String
  subscriptionId : String
  planId : String
  status : String
  cancelAt : Option String := none
  eventTimestamp : Int
deriving Repr, DecidableEq

/-- The timestamp guard of _buildStripeSubscriptionDdbParams:
attribute_not_exists(#stripeEventTimestamp) or
#stripeEventTimestamp < :stripeEventTimestamp. -/
def stripeEventTimestampGuard (stored : Option Int) (incoming : Int) : Bool :=
  match stored with
  | none => true
  | some t => t < incoming

/-- The SET / REMOVE clauses of the update expression built by
_buildStripeSubscriptionDdbParams for the chosen environment: the five
subscription attributes are set, and cancel-at is removed when the event
carries no cancel-at value. -/
def applyStripeEventToFields (ev : SubscriptionEvent) : StripeFields → StripeFields :=
  fun f =>
    { f with
      stripeCustomerId := some ev.customerId,
      subscriptionId := some ev.subscriptionId,
      subscriptionPlanId := some ev.planId,
      subscriptionStatus := some ev.status,
      stripeEventTimestamp := some ev.eventTimestamp,
      cancelSubscriptionAt := ev.cancelAt }

/-- The single failure a DynamoDB conditional write reports when its
condition expression does not hold; its message attribute is the fixed
string used below. -/
inductive DdbError where
  | conditionalCheckFailed
deriving Repr, DecidableEq

/-- The message attribute of a ConditionalCheckFailedException as thrown by
the DynamoDB client. -/
def conditionalCheckFailedMessage : String := "The conditional request failed"

/-- The conditional update built by _buildStripeSubscriptionDdbParams,
executed against the stored item under the key of the user record: the
condition is attribute_exists(username) and user-id matches and the event
timestamp guard; on success the five subscription attributes of the chosen
environment are written and cancel-at is set or removed. -/
def updateStripeSubscriptionInStore (stored : Option UserRecord) (userId : String)
    (ev : SubscriptionEvent) (isProduction : Bool) : Except DdbError UserRecord :=
  match stored with
  | none => Except.error DdbError.conditionalCheckFailed
  | some s =>
    if s.userId = userId ∧
        stripeEventTimestampGuard (stripeFieldsOf s isProduction).stripeEventTimestamp
          ev.eventTimestamp then
      Except.ok (setStripeFields s isProduction
        (applyStripeEventToFields ev (stripeFieldsOf s isProduction)))
    else
      Except.error DdbError.conditionalCheckFailed

/-- The __userbase metadata attached to the Stripe subscription by
_createStripePaymentSession, as read back by the webhook. -/
structure EventMetadata where
  userbaseUserId : Option String := none
  userbaseAdminId : Option String := none
  userbaseAppId : Option String := none
deriving Repr, DecidableEq

/-- The outcome of the updateSubscriptionInDdb webhook step: either it
returns normally (the event was applied, or the integrity issue was logged
and swallowed), or it re-throws an error with the given message to the
webhook caller. -/
inductive WebhookOutcome where
  | returnedNormally
  | raised (message : String)
deriving Repr, DecidableEq

/-- updateSubscriptionInDdb: the integrity checks on the event metadata and
the cross-records, followed by the conditional subscription write.  Each
named integrity error is caught by the switch on the message and swallowed;
any other error, in particular the ConditionalCheckFailedException of a
stale event timestamp, reaches the default branch and is re-thrown.  The
admin, app and user lookups are externalized as the Option arguments, the
user argument doubling as the stored item the conditional write runs
against.  The second component is the stored user item afterwards. -/
def updateSubscriptionInDdb (metadata : EventMetadata)
    (admin : Option AdminRecord) (app : Option AppRecord) (user : Option UserRecord)
    (ev : SubscriptionEvent) (isProduction : Bool) (stripeAccountId : Option String) :
    WebhookOutcome × Option UserRecord :=
  match metadata.userbaseUserId, metadata.userbaseAppId, metadata.userbaseAdminId with
  | some _userId, some appId, some adminId =>
    match admin, app, user with
    | some a, some ap, some u =>
      if ap.adminId ≠ adminId then (WebhookOutcome.returnedNormally, user)
      else if u.appId ≠ appId then (WebhookOutcome.returnedNormally, user)
      else if a.stripeAccountId ≠ stripeAccountId then
        (WebhookOutcome.returnedNormally, user)
      else if (if isProduction then ap.prodSubscriptionPlanId ≠ some ev.planId
          else ap.testSubscriptionPlanId ≠ some ev.planId) then
        (WebhookOutcome.returnedNormally, user)
      else
        match updateStripeSubscriptionInStore user u.userId ev isProduction with
        | Except.ok u' => (WebhookOutcome.returnedNormally, some u')
        | Except.error DdbError.conditionalCheckFailed =>
          (WebhookOutcome.raised conditionalCheckFailedMessage, user)
    | _, _, _ => (WebhookOutcome.returnedNormally, user)
  | _, _, _ => (WebhookOutcome.returnedNormally, user)

/-- The billing summary _buildStripeData assembles for the validateKey
response: the subscription status and cancel-at of the environment selected
by the payments mode of the app, absent when payments are disabled. -/
structure StripeData where
  stripeAccountId : Option String := none
  paymentsMode : String := "disabled"
  subscriptionStatus : Option String := none
  cancelSubscriptionAt : Option String := none
deriving Repr, DecidableEq

/-- Model of _buildStripeData from the admin, app and user records. -/
def buildStripeData (admin : AdminRecord) (app : AppRecord) (user : UserRecord) :
    StripeData :=
  let base : StripeData :=
    { stripeAccountId := admin.stripeAccountId,
      paymentsMode := (app.paymentsMode).getD "disabled" }
  if app.paymentsMode = some "test" then
    { base with
      subscriptionStatus := user.testStripe.subscriptionStatus,
      cancelSubscriptionAt := user.testStripe.cancelSubscriptionAt }
  else if app.paymentsMode = some "prod" then
    { base with
      subscriptionStatus := user.prodStripe.subscriptionStatus,
      cancelSubscriptionAt := user.prodStripe.cancelSubscriptionAt }
  else
    base

/-- The externally observable response of validateKey: either the success
payload with the billing summary, or an error response with an HTTP status
code and a message string. -/
inductive ValidateKeyResponse where
  | success (stripeData : StripeData)
  | failure (status : Nat) (message : String)
deriving Repr, DecidableEq

/-- The condition expression of the userSavedSeed update:
attribute_exists(seed-not-saved-yet) and user-id and public-key still match
the values the validation started from. -/
def userSavedSeedCondition (stored : Option UserRecord) (userId publicKey : String) :
    Bool :=
  match stored with
  | none => false
  | some s => s.seedNotSavedYet ∧ s.userId = userId ∧ s.publicKey = publicKey

/-- The update applied by userSavedSeed when its condition holds: REMOVE
seed-not-saved-yet. -/
def userSavedSeedApply (stored : Option UserRecord) : Option UserRecord :=
  stored.map fun s => { s with seedNotSavedYet := false }

/-- validateKey: compare the base64 form of the validation message with the
client-provided message; on match, commit the seed via the conditional
userSavedSeed write when the bootstrap flag is still set, answering
Unauthorized with the message Invalid seed when that conditional write
fails; on mismatch answer Unauthorized with the message Failed to validate
key.  The validation message is modelled by its base64 string.  The stored
argument is the current item of the users table for this user key; the
second component is that item after the call. -/
def validateKey (validationMessage userProvidedValidationMessage : String)
    (admin : AdminRecord) (app : AppRecord) (user : UserRecord)
    (stored : Option UserRecord) : ValidateKeyResponse × Option UserRecord :=
  if validationMessage = userProvidedValidationMessage then
    if user.seedNotSavedYet then
      if userSavedSeedCondition stored user.userId user.publicKey then
        (ValidateKeyResponse.success (buildStripeData admin app user),
          userSavedSeedApply stored)
      else
        (ValidateKeyResponse.failure 401 "Invalid seed", stored)
    else
      (ValidateKeyResponse.success (buildStripeData admin app user), stored)
  else
    (ValidateKeyResponse.failure 401 "Failed to validate key", stored)

/-- The four failures _throwPaymentErrors can throw, in their precedence
order. -/
inductive PaymentError where
  | subscriptionPlanNotSet
  | subscriptionNotFound
  | subscribedToIncorrectPlan
  | subscriptionInactive (subscriptionStatus : Option String)
deriving Repr, DecidableEq

/-- True when the payments mode of the app is prod. -/
def isProdPaymentsMode (app : AppRecord) : Bool :=
  app.paymentsMode = some "prod"

/-- The subscription plan id the app configures for its active payment
environment. -/
def appEnvSubscriptionPlanId (app : AppRecord) : Option String :=
  if isProdPaymentsMode app then app.prodSubscriptionPlanId
  else app.testSubscriptionPlanId

/-- The subscription plan id stored on the user for the active payment
environment of the app. -/
def userEnvSubscriptionPlanId (user : UserRecord) (app : AppRecord) : Option String :=
  if isProdPaymentsMode app then user.prodStripe.subscriptionPlanId
  else user.testStripe.subscriptionPlanId

/-- The subscription status stored on the user for the active payment
environment of the app. -/
def userEnvSubscriptionStatus (user : UserRecord) (app : AppRecord) : Option String :=
  if isProdPaymentsMode app then user.prodStripe.subscriptionStatus
  else user.testStripe.subscriptionStatus

/-- validatePayment: permit when the payments mode is neither prod nor test,
or when it is prod but prod payments are not enabled for the admin; then
throw the first applicable of the four payment errors via
_throwPaymentErrors. -/
def validatePayment (user : UserRecord) (app : AppRecord) (admin : AdminRecord) :
    Except PaymentError Unit :=
  if app.paymentsMode ≠ some "prod" ∧ app.paymentsMode ≠ some "test" then
    Except.ok ()
  else if app.paymentsMode = some "prod" ∧ ¬admin.prodPaymentsEnabled then
    Except.ok ()
  else
    let subscriptionPlanNotSet := (appEnvSubscriptionPlanId app).isNone
    let subscriptionNotFound := (userEnvSubscriptionPlanId user app).isNone
    let subscribedToIncorrectPlan :=
      appEnvSubscriptionPlanId app ≠ userEnvSubscriptionPlanId user app
    let subscriptionStatus := userEnvSubscriptionStatus user app
    let subscriptionInactive :=
      subscriptionStatus ≠ some "active" ∧ subscriptionStatus ≠ some "trialing"
    if subscriptionPlanNotSet then Except.error PaymentError.subscriptionPlanNotSet
    else if subscriptionNotFound then Except.error PaymentError.subscriptionNotFound
    else if subscribedToIncorrectPlan then
      Except.error PaymentError.subscribedToIncorrectPlan
    else if subscriptionInactive then
      Except.error (PaymentError.subscriptionInactive subscriptionStatus)
    else Except.ok ()

/-- The users table, keyed by (app-id, username). -/
def UserStore : Type := String → String → Option UserRecord

/-- A session item of the sessions table. -/
structure SessionRecord where
  sessionId : String
  authToken : Option String := none
  userId : Option String := none
  appId : Option String := none
  creationDate : Option Int := none
  extendedDate : Option Int := none
  invalidated : Bool := false
  ttl : Option Int := none
deriving Repr, DecidableEq

/-- The sessions table, keyed by session-id. -/
def SessionStore : Type := String → Option SessionRecord

/-- Puts a user item into the users table under its own key. -/
def putUser (users : UserStore) (u : UserRecord) : UserStore :=
  fun appId username =>
    if appId = u.appId ∧ username = u.username then some u else users appId username

/-- An error response of the REST controllers: an HTTP status code and the
message sent to the caller. -/
structure ErrResp where
  status : Nat
  message : String
deriving Repr, DecidableEq

/-- Model of _validateUsernameInput: the username must be a nonblank string of at
most MAX_USERNAME_CHAR_LENGTH characters; returns the name of the thrown
validation error, if any. -/
def validateUsernameInput (username : String) : Option String :=
  if username = "" then some "UsernameCannotBeBlank"
  else if username.length > MAX_USERNAME_CHAR_LENGTH then some "UsernameTooLong"
  else none

/-- The per-entry checks of _validateProfile on one key/value pair. -/
def profileEntryError (entry : String × String) : Option String :=
  if entry.1.length > MAX_PROFILE_OBJECT_KEY_CHAR_LENGTH then
    some "ProfileKeyTooLong"
  else if entry.2 = "" then some "ProfileValueCannotBeBlank"
  else if entry.2.length > MAX_PROFILE_OBJECT_VALUE_CHAR_LENGTH then
    some "ProfileValueTooLong"
  else none

/-- The iteration of _validateProfile: each entry is checked, then the
counter, incremented after the entry, may exceed MAX_PROFILE_OBJECT_KEYS. -/
def validateProfileEntries : List (String × String) → Nat → Option String
  | [], _ => none
  | entry :: rest, counter =>
    match profileEntryError entry with
    | some e => some e
    | none =>
      if counter + 1 > MAX_PROFILE_OBJECT_KEYS then some "ProfileHasTooManyKeys"
      else validateProfileEntries rest (counter + 1)

/-- Model of _validateProfile: a profile is a flat nonempty string-to-string mapping
within the key, value and cardinality limits. -/
def validateProfile (profile : List (String × String)) : Option String :=
  match validateProfileEntries profile 0 with
  | some e => some e
  | none => if profile.isEmpty then some "ProfileCannotBeEmpty" else none

/-- Modelled from the spec: utils.validateEmail is not under src; the spec
only requires a well-formedness check on the optional email, abstracted
here as the presence of an at sign. -/
def validateEmail (email : String) : Bool :=
  email.any fun c => c = '@'

/-- The password salt pair supplied at sign-up. -/
structure PasswordSalts where
  passwordSalt : String
  passwordTokenSalt : String
deriving Repr, DecidableEq

/-- The key salt triple supplied at sign-up. -/
structure KeySalts where
  encryptionKeySalt : String
  dhKeySalt : String
  hmacKeySalt : String
deriving Repr, DecidableEq

/-- The password-based backup pair supplied at sign-up. -/
structure PasswordBasedBackup where
  passwordBasedEncryptionKeySalt : String
  passwordEncryptedSeed : String
deriving Repr, DecidableEq

/-- Model of _validateSignUpInput: required items, required salts, required backup
items, the username check, the optional email and profile checks; any
failure becomes a Bad Request response. -/
def validateSignUpInput (appId username passwordToken publicKey : String)
    (passwordSalts : PasswordSalts) (keySalts : KeySalts)
    (passwordBasedBackup : PasswordBasedBackup)
    (email : Option String) (profile : Option (List (String × String))) :
    Option ErrResp :=
  if appId = "" ∨ username = "" ∨ passwordToken = "" ∨ publicKey = "" then
    some ⟨400, "Missing required items"⟩
  else if passwordSalts.passwordSalt = "" ∨ passwordSalts.passwordTokenSalt = "" ∨
      keySalts.encryptionKeySalt = "" ∨ keySalts.dhKeySalt = "" ∨
      keySalts.hmacKeySalt = "" then
    some ⟨400, "Missing required salts"⟩
  else if passwordBasedBackup.passwordBasedEncryptionKeySalt = "" ∨
      passwordBasedBackup.passwordEncryptedSeed = "" then
    some ⟨400, "Missing password-based backup items"⟩
  else
    match validateUsernameInput username with
    | some e => some ⟨400, e⟩
    | none =>
      match email with
      | some em =>
        if ¬validateEmail em then some ⟨400, "EmailNotValid"⟩
        else
          match profile with
          | some p => (validateProfile p).map fun e => ⟨400, e⟩
          | none => none
      | none =>
        match profile with
        | some p => (validateProfile p).map fun e => ⟨400, e⟩
        | none => none

/-- The user item _buildSignUpParams builds: username case-folded, password
token hashed, the bootstrap flag seed-not-saved-yet set, email case-folded
when present. -/
def buildSignUpParams (username passwordToken appId userId publicKey : String)
    (passwordSalts : PasswordSalts) (keySalts : KeySalts)
    (email : Option String) (profile : Option (List (String × String)))
    (passwordBasedBackup : PasswordBasedBackup) (now : Int) : UserRecord :=
  { username := username.toLower,
    passwordTokenHash := sha256hash passwordToken,
    passwordSalt := passwordSalts.passwordSalt,
    passwordTokenSalt := passwordSalts.passwordTokenSalt,
    appId := appId,
    userId := userId,
    publicKey := publicKey,
    encryptionKeySalt := keySalts.encryptionKeySalt,
    dhKeySalt := keySalts.dhKeySalt,
    hmacKeySalt := keySalts.hmacKeySalt,
    seedNotSavedYet := true,
    creationDate := now,
    passwordBasedEncryptionKeySalt :=
      some passwordBasedBackup.passwordBasedEncryptionKeySalt,
    passwordEncryptedSeed := some passwordBasedBackup.passwordEncryptedSeed,
    email := email.map String.toLower,
    profile := profile }

/-- The condition expression of the sign-up put:
attribute_not_exists(username) or attribute_exists(seed-not-saved-yet) —
insert a fresh username, or overwrite a user who has not yet saved the
seed. -/
def signUpConditionOk (existing : Option UserRecord) : Bool :=
  match existing with
  | none => true
  | some u => u.seedNotSavedYet

/-- The conditional put of the sign-up user item. -/
def signUpPut (users : UserStore) (newUser : UserRecord) :
    Except DdbError UserStore :=
  if signUpConditionOk (users newUser.appId newUser.username) then
    Except.ok (putUser users newUser)
  else
    Except.error DdbError.conditionalCheckFailed

/-- createSession: a fresh session item with the two random tokens
externalized as arguments, written unconditionally to the sessions table. -/
def createSession (sessions : SessionStore) (sessionId authToken userId appId : String)
    (now : Int) : SessionStore :=
  fun sid =>
    if sid = sessionId then
      some { sessionId := sessionId, authToken := some authToken,
             userId := some userId, appId := some appId,
             creationDate := some now, ttl := some (now + MS_IN_A_DAY) }
    else sessions sid

/-- Model of _validateSubscription of sign-up: when the admin SaaS subscription is
not an uncancelled active one, the app may hold at most
LIMIT_NUM_TRIAL_USERS non-deleted users.  The external user count is the
numAppUsers argument. -/
def validateSubscription (status : Option String) (cancelAt : Option String)
    (numAppUsers : Nat) : Bool :=
  if status ≠ some "active" ∨ cancelAt.isSome then
    numAppUsers < LIMIT_NUM_TRIAL_USERS
  else
    true

/-- The success payload of sign-up. -/
structure SignUpResult where
  userId : String
  sessionId : String
  authToken : String
  creationDate : Int
deriving Repr, DecidableEq

/-- signUp: validate the input, resolve the app and its admin (externalized
as the Option arguments), enforce the trial limit, build the user item and
put it under the sign-up condition (a failed condition is the Conflict
UsernameAlreadyExists), then create a session.  Randomness (the fresh user
id and the two session tokens) is externalized as arguments. -/
def signUp (users : UserStore) (sessions : SessionStore)
    (app : Option AppRecord) (admin : Option AdminRecord) (numAppUsers : Nat)
    (appId username passwordToken publicKey : String)
    (passwordSalts : PasswordSalts) (keySalts : KeySalts)
    (passwordBasedBackup : PasswordBasedBackup)
    (email : Option String) (profile : Option (List (String × String)))
    (freshUserId freshSessionId freshAuthToken : String) (now : Int) :
    Except ErrResp (SignUpResult × UserStore × SessionStore) :=
  match validateSignUpInput appId username passwordToken publicKey
      passwordSalts keySalts passwordBasedBackup email profile with
  | some e => Except.error e
  | none =>
    match app with
    | none => Except.error ⟨401, "App ID not valid"⟩
    | some ap =>
      if ap.deleted then Except.error ⟨401, "App ID not valid"⟩
      else
        match admin with
        | none => Except.error ⟨401, "App ID not valid"⟩
        | some a =>
          if a.deleted then Except.error ⟨401, "App ID not valid"⟩
          else if ¬validateSubscription a.stripeSaasSubscriptionStatus
              a.stripeCancelSaasSubscriptionAt numAppUsers then
            Except.error ⟨402, "TrialExceededLimit"⟩
          else
            let newUser := buildSignUpParams username passwordToken appId
              freshUserId publicKey passwordSalts keySalts email profile
              passwordBasedBackup now
            match signUpPut users newUser with
            | Except.error DdbError.conditionalCheckFailed =>
              Except.error ⟨409, "UsernameAlreadyExists"⟩
            | Except.ok users' =>
              let sessions' := createSession sessions freshSessionId
                freshAuthToken freshUserId appId now
              Except.ok (⟨freshUserId, freshSessionId, freshAuthToken, now⟩,
                users', sessions')

/-- The success payload of sign-in: the fresh session, the user id, and the
optional attributes copied from the user record. -/
structure SignInResult where
  sessionId : String
  authToken : String
  sessionCreationDate : Int
  userId : String
  usedTempPassword : Bool := false
  email : Option String := none
  profile : Option (List (String × String)) := none
  passwordBasedBackup : Option (String × String) := none
  protectedProfile : Option (List (String × String)) := none
deriving Repr, DecidableEq

/-- The sign-in response assembled from the user record after a successful
password check: the fresh session, the user id, and the optional attributes
copied from the record; the password-based backup is included only when the
permanent password was used and both backup attributes are present. -/
def buildSignInResult (u : UserRecord) (usedTempPassword : Bool)
    (freshSessionId freshAuthToken : String) (now : Int) : SignInResult :=
  { sessionId := freshSessionId,
    authToken := freshAuthToken,
    sessionCreationDate := now,
    userId := u.userId,
    usedTempPassword := usedTempPassword,
    email := u.email,
    profile := u.profile,
    passwordBasedBackup :=
      if usedTempPassword then none
      else
        match u.passwordBasedEncryptionKeySalt, u.passwordEncryptedSeed with
        | some salt, some seed => some (salt, seed)
        | _, _ => none,
    protectedProfile := u.protectedProfile }

/-- signIn: validate the input, resolve the app and its admin, look the user
up by (app-id, case-folded username), run _validatePassword (whose limit
error keeps its identity while every other password failure becomes the
uniform Invalid password response), reject a user pending deletion, create
a session and assemble the response.  The fire-and-forget bookkeeping
writes and the session write go to the stores via the helpers above; the
value returned is the response sent to the caller. -/
def signIn (users : UserStore)
    (app : Option AppRecord) (admin : Option AdminRecord)
    (appId username passwordToken : String)
    (freshSessionId freshAuthToken : String) (now : Int) :
    Except ErrResp SignInResult :=
  if appId = "" ∨ username = "" ∨ passwordToken = "" then
    Except.error ⟨400, "Missing required items"⟩
  else
    match validateUsernameInput username with
    | some e => Except.error ⟨400, e⟩
    | none =>
      match app with
      | none => Except.error ⟨401, "App ID not valid"⟩
      | some ap =>
        if ap.deleted then Except.error ⟨401, "App ID not valid"⟩
        else
          match admin with
          | none => Except.error ⟨401, "App ID not valid"⟩
          | some a =>
            if a.deleted then Except.error ⟨401, "App ID not valid"⟩
            else
              let user := users appId username.toLower
              match validatePassword passwordToken user now with
              | (Except.error f, _) =>
                match f with
                | PasswordFailure.passwordAttemptLimitExceeded _ =>
                  Except.error ⟨401, "PasswordAttemptLimitExceeded"⟩
                | _ => Except.error ⟨401, "Invalid password"⟩
              | (Except.ok usedTempPassword, _) =>
                match user with
                | none => Except.error ⟨401, "Invalid password"⟩
                | some u =>
                  if u.deleted then Except.error ⟨403, "User pending deletion"⟩
                  else
                    Except.ok (buildSignInResult u usedTempPassword
                      freshSessionId freshAuthToken now)

/-- The responses signOut can build. -/
inductive SignOutResponse where
  | success (message : String)
  | failure (status : Nat) (message : String)
deriving Repr, DecidableEq

/-- signOut: a missing session id is Unauthorized; otherwise the update SET
invalidated = true is an upsert on the session key — an absent item is
created holding only the key and the flag — and the response is the
success one. -/
def signOut (sessions : SessionStore) (sessionId : String) :
    SignOutResponse × SessionStore :=
  if sessionId = "" then
    (SignOutResponse.failure 401 "Missing session id", sessions)
  else
    let sessions' : SessionStore := fun sid =>
      if sid = sessionId then
        match sessions sessionId with
        | some s => some { s with invalidated := true }
        | none => some { sessionId := sessionId, invalidated := true }
      else sessions sid
    (SignOutResponse.success "Success!", sessions')

/-- Unfolding lemma for validatePassword on a present user record. -/
theorem validatePassword_some (passwordToken : String) (u : UserRecord) (now : Int) :
    validatePassword passwordToken (some u) now =
      if u.incorrectPasswordAttemptsInRow.getD 0 ≥ MAX_INCORRECT_PASSWORD_GUESSES then
        match u.suspendedAt with
        | none =>
          (Except.error (PasswordFailure.passwordAttemptLimitExceeded "24 hours"),
            some (suspendUser u now))
        | some dateSuspended =>
          if now - dateSuspended < MS_IN_A_DAY then
            (Except.error (PasswordFailure.passwordAttemptLimitExceeded "24 hours"),
              some u)
          else
            ((checkPasswordHashes passwordToken (allowUserToRetryPassword u) now).1,
              some (checkPasswordHashes passwordToken (allowUserToRetryPassword u) now).2)
      else
        ((checkPasswordHashes passwordToken u now).1,
          some (checkPasswordHashes passwordToken u now).2) := rfl

/-- A user who has exhausted the incorrect password attempt limit and has
not been suspended yet. -/
def lockoutUser : UserRecord :=
  { username := "alice", appId := "app-1", userId := "user-1",
    passwordTokenHash := sha256hash "correct-password-token",
    incorrectPasswordAttemptsInRow := some 25 }

/-- A user holding a temp password token created at time 0. -/
def tempPasswordUser : UserRecord :=
  { username := "bob", appId := "app-1", userId := "user-2",
    passwordTokenHash := sha256hash "permanent-token",
    tempPasswordTokenHash := some (sha256hash "temporary-token"),
    tempPasswordCreationDate := 0 }

/-- Claim C3: once the incorrect-attempts counter has reached the limit of 25, the
next password check fails with PasswordAttemptLimitExceeded and the 24-hour
delay hint, whatever token is supplied, both when suspended-at is not yet
set and while it is younger than 24 hours; and when suspended-at is at
least 24 hours old the check first clears suspended-at and resets the
counter to 0 and then evaluates the supplied password exactly as it would
for the cleared record. -/
theorem validatePassword_lockout_then_reset (passwordToken : String)
    (u : UserRecord) (now : Int)
    (hmax : u.incorrectPasswordAttemptsInRow.getD 0 ≥ MAX_INCORRECT_PASSWORD_GUESSES) :
    ((u.suspendedAt = none ∨ (∃ d, u.suspendedAt = some d ∧ now - d < MS_IN_A_DAY)) →
      (validatePassword passwordToken (some u) now).1 =
        Except.error (PasswordFailure.passwordAttemptLimitExceeded "24 hours")) ∧
    (∀ d, u.suspendedAt = some d → now - d ≥ MS_IN_A_DAY →
      validatePassword passwordToken (some u) now =
        validatePassword passwordToken (some (allowUserToRetryPassword u)) now ∧
      (allowUserToRetryPassword u).suspendedAt = none ∧
      (allowUserToRetryPassword u).incorrectPasswordAttemptsInRow = some 0) := by
  constructor
  · intro hsusp
    rw [validatePassword_some, if_pos hmax]
    rcases hsusp with h | ⟨d, hd, hrec⟩
    · rw [h]
    · rw [hd]
      simp only [if_pos hrec]
  · intro d hd hge
    refine ⟨?_, rfl, rfl⟩
    rw [validatePassword_some, if_pos hmax]
    simp only [hd]
    rw [if_neg (by omega), validatePassword_some,
      if_neg (by simp [allowUserToRetryPassword, MAX_INCORRECT_PASSWORD_GUESSES])]

/-- Witness for C3 at a concrete locked-out record. -/
theorem validatePassword_lockout_then_reset_witness :
    lockoutUser.incorrectPasswordAttemptsInRow.getD 0 ≥ MAX_INCORRECT_PASSWORD_GUESSES ∧
    (validatePassword "correct-password-token" (some lockoutUser) 0).1 =
      Except.error (PasswordFailure.passwordAttemptLimitExceeded "24 hours") :=
  ⟨by decide,
    (validatePassword_lockout_then_reset "correct-password-token" lockoutUser 0
      (by decide)).1 (Or.inl rfl)⟩

/-- Claim C4 counterexample: at exactly 24 hours after the temp password creation
time the check still succeeds, although fewer than 24 hours have not
elapsed — the acceptance window is closed under the 24-hour boundary, not
open. -/
theorem tempPassword_exact_24h_counterexample :
    (validatePassword "temporary-token" (some tempPasswordUser) MS_IN_A_DAY).1 =
      Except.ok true ∧
    ¬(MS_IN_A_DAY - tempPasswordUser.tempPasswordCreationDate < MS_IN_A_DAY) := by
  exact ⟨rfl, by decide⟩

/-- Claim C4 amended: a matching temp password token is accepted exactly while at
most 24 hours have elapsed since its creation; strictly after 24 hours the
check fails with the temp-password-expired error, which differs from the
incorrect-password error raised when neither hash matches. -/
theorem validatePassword_tempPassword_window (passwordToken : String)
    (u : UserRecord) (now : Int) (th : Hash)
    (hnotlocked : u.incorrectPasswordAttemptsInRow.getD 0 <
      MAX_INCORRECT_PASSWORD_GUESSES)
    (hwrong : sha256hash passwordToken ≠ u.passwordTokenHash)
    (htemp : u.tempPasswordTokenHash = some th)
    (hmatch : sha256hash passwordToken = th) :
    ((validatePassword passwordToken (some u) now).1 = Except.ok true ↔
      now - u.tempPasswordCreationDate ≤ MS_IN_A_DAY) ∧
    (now - u.tempPasswordCreationDate > MS_IN_A_DAY →
      (validatePassword passwordToken (some u) now).1 =
        Except.error PasswordFailure.tempPasswordExpired) ∧
    (∀ t : String, sha256hash t ≠ u.passwordTokenHash →
      (∀ h, u.tempPasswordTokenHash = some h → sha256hash t ≠ h) →
      (validatePassword t (some u) now).1 =
        Except.error PasswordFailure.incorrectPassword) ∧
    PasswordFailure.tempPasswordExpired ≠ PasswordFailure.incorrectPassword := by
  have hbranch : ∀ t : String, validatePassword t (some u) now =
      ((checkPasswordHashes t u now).1, some (checkPasswordHashes t u now).2) := by
    intro t
    rw [validatePassword_some, if_neg (by omega)]
  refine ⟨?_, ?_, ?_, by decide⟩
  · rw [hbranch]
    unfold checkPasswordHashes
    rw [if_neg hwrong, htemp]
    simp only [if_pos (show (decide (sha256hash passwordToken = th) : Bool) = true by
      simp [hmatch])]
    constructor
    · intro h
      by_contra hgt
      rw [if_pos (by omega)] at h
      exact absurd h (by simp)
    · intro hle
      rw [if_neg (by omega)]
  · intro hgt
    rw [hbranch]
    unfold checkPasswordHashes
    rw [if_neg hwrong, htemp]
    simp only [if_pos (show (decide (sha256hash passwordToken = th) : Bool) = true by
      simp [hmatch])]
    rw [if_pos hgt]
  · intro t hw hnt
    rw [hbranch]
    unfold checkPasswordHashes
    rw [if_neg hw]
    have : (match u.tempPasswordTokenHash with
        | some th => decide (sha256hash t = th)
        | none => false) = false := by
      rw [htemp]
      simpa using hnt th htemp
    simp only [this]
    rfl

/-- Witness for the amended C4: ten milliseconds after creation the matching
temp password is accepted. -/
theorem validatePassword_tempPassword_window_witness :
    (10 : Int) - tempPasswordUser.tempPasswordCreationDate ≤ MS_IN_A_DAY ∧
    (validatePassword "temporary-token" (some tempPasswordUser) 10).1 =
      Except.ok true :=
  ⟨by decide,
    (validatePassword_tempPassword_window "temporary-token" tempPasswordUser 10
      (sha256hash "temporary-token") (by decide) (by decide) rfl rfl).1.mpr (by decide)⟩

/-- Reading the environment group back after writing it yields the written
group. -/
theorem stripeFieldsOf_setStripeFields (u : UserRecord) (isProduction : Bool)
    (f : StripeFields) :
    stripeFieldsOf (setStripeFields u isProduction f) isProduction = f := by
  cases isProduction <;> rfl

/-- setStripeFields does not touch the user id. -/
theorem setStripeFields_userId (u : UserRecord) (isProduction : Bool)
    (f : StripeFields) :
    (setStripeFields u isProduction f).userId = u.userId := by
  cases isProduction <;> rfl

/-- Unfolding lemma for updateStripeSubscriptionInStore on a present stored
item. -/
theorem updateStripeSubscriptionInStore_some (s : UserRecord) (userId : String)
    (ev : SubscriptionEvent) (isProduction : Bool) :
    updateStripeSubscriptionInStore (some s) userId ev isProduction =
      if s.userId = userId ∧
          stripeEventTimestampGuard (stripeFieldsOf s isProduction).stripeEventTimestamp
            ev.eventTimestamp then
        Except.ok (setStripeFields s isProduction
          (applyStripeEventToFields ev (stripeFieldsOf s isProduction)))
      else
        Except.error DdbError.conditionalCheckFailed := rfl

/-- A stale event timestamp — equal to or before the stored one — makes the
conditional subscription write fail. -/
theorem updateStripeSubscription_stale_fails (s : UserRecord) (userId : String)
    (ev : SubscriptionEvent) (isProduction : Bool) (t : Int)
    (hts : (stripeFieldsOf s isProduction).stripeEventTimestamp = some t)
    (hle : ev.eventTimestamp ≤ t) :
    updateStripeSubscriptionInStore (some s) userId ev isProduction =
      Except.error DdbError.conditionalCheckFailed := by
  rw [updateStripeSubscriptionInStore_some, if_neg]
  intro ⟨_, hguard⟩
  rw [hts] at hguard
  simp [stripeEventTimestampGuard] at hguard
  omega

/-- Claim C5: the stored stripe-event-timestamp is a strictly monotone guard — an
event whose timestamp equals or precedes the stored one leaves the record
unchanged (the conditional write fails), and a successful apply happened
exactly from an absent or strictly smaller stored timestamp, stores the
incoming timestamp, and makes an immediate replay of the same event a
no-op. -/
theorem stripeSubscription_timestamp_monotone (s : UserRecord)
    (ev : SubscriptionEvent) (isProduction : Bool) :
    (∀ t, (stripeFieldsOf s isProduction).stripeEventTimestamp = some t →
      ev.eventTimestamp ≤ t →
      updateStripeSubscriptionInStore (some s) s.userId ev isProduction =
        Except.error DdbError.conditionalCheckFailed) ∧
    (∀ u', updateStripeSubscriptionInStore (some s) s.userId ev isProduction =
        Except.ok u' →
      ((stripeFieldsOf s isProduction).stripeEventTimestamp = none ∨
        (∃ t, (stripeFieldsOf s isProduction).stripeEventTimestamp = some t ∧
          t < ev.eventTimestamp)) ∧
      (stripeFieldsOf u' isProduction).stripeEventTimestamp = some ev.eventTimestamp ∧
      updateStripeSubscriptionInStore (some u') u'.userId ev isProduction =
        Except.error DdbError.conditionalCheckFailed) := by
  constructor
  · intro t ht hle
    exact updateStripeSubscription_stale_fails s s.userId ev isProduction t ht hle
  · intro u' h
    rw [updateStripeSubscriptionInStore_some] at h
    by_cases hc : s.userId = s.userId ∧
        (stripeEventTimestampGuard (stripeFieldsOf s isProduction).stripeEventTimestamp
          ev.eventTimestamp : Bool) = true
    · rw [if_pos hc] at h
      have hu' : u' = setStripeFields s isProduction
          (applyStripeEventToFields ev (stripeFieldsOf s isProduction)) := by
        cases h
        rfl
      have hguard := hc.2
      refine ⟨?_, ?_, ?_⟩
      · cases hts : (stripeFieldsOf s isProduction).stripeEventTimestamp with
        | none => exact Or.inl rfl
        | some t =>
          rw [hts] at hguard
          simp [stripeEventTimestampGuard] at hguard
          exact Or.inr ⟨t, rfl, hguard⟩
      · rw [hu', stripeFieldsOf_setStripeFields]
        rfl
      · rw [updateStripeSubscriptionInStore_some, if_neg]
        intro ⟨_, hguard'⟩
        rw [hu', stripeFieldsOf_setStripeFields] at hguard'
        simp [stripeEventTimestampGuard, applyStripeEventToFields] at hguard'
    · rw [if_neg hc] at h
      exact absurd h (by simp)

/-- Witness for C5 at a concrete record holding timestamp 100 and a replayed
event with the same timestamp. -/
theorem stripeSubscription_timestamp_monotone_witness :
    (stripeFieldsOf
        { username := "carol", appId := "app-1", userId := "user-3",
          passwordTokenHash := sha256hash "t",
          prodStripe := { stripeEventTimestamp := some 100 } } true).stripeEventTimestamp =
      some 100 ∧
    updateStripeSubscriptionInStore
      (some { username := "carol", appId := "app-1", userId := "user-3",
              passwordTokenHash := sha256hash "t",
              prodStripe := { stripeEventTimestamp := some 100 } }) "user-3"
      { customerId := "cus_1", subscriptionId := "sub_1", planId := "plan_1",
        status := "active", eventTimestamp := 100 } true =
      Except.error DdbError.conditionalCheckFailed :=
  ⟨rfl,
    (stripeSubscription_timestamp_monotone
      { username := "carol", appId := "app-1", userId := "user-3",
        passwordTokenHash := sha256hash "t",
        prodStripe := { stripeEventTimestamp := some 100 } }
      { customerId := "cus_1", subscriptionId := "sub_1", planId := "plan_1",
        status := "active", eventTimestamp := 100 } true).1 100 rfl (by decide)⟩

/-- The metadata of a concrete, fully consistent billing event. -/
def sampleMetadata : EventMetadata :=
  { userbaseUserId := some "user-3", userbaseAdminId := some "admin-1",
    userbaseAppId := some "app-1" }

/-- A concrete admin with a connected Stripe account. -/
def sampleAdmin : AdminRecord :=
  { adminId := "admin-1", stripeAccountId := some "acct_1" }

/-- A concrete app in prod payments mode with a configured plan. -/
def sampleApp : AppRecord :=
  { appId := "app-1", adminId := "admin-1", paymentsMode := some "prod",
    prodSubscriptionPlanId := some "plan_1" }

/-- A concrete user whose prod environment already stores event timestamp
100. -/
def sampleBillingUser : UserRecord :=
  { username := "carol", appId := "app-1", userId := "user-3",
    passwordTokenHash := sha256hash "t",
    prodStripe := { stripeEventTimestamp := some 100 } }

/-- A concrete replayed event carrying the already-stored timestamp 100. -/
def sampleStaleEvent : SubscriptionEvent :=
  { customerId := "cus_1", subscriptionId := "sub_1", planId := "plan_1",
    status := "active", eventTimestamp := 100 }

/-- Claim C1 counterexample: a billing event whose timestamp is not strictly
greater than the stored stripe-event-timestamp leaves the record unchanged,
but updateSubscriptionInDdb does not return normally — the conditional
check failure falls through the swallow switch and is re-raised to the
webhook caller. -/
theorem updateSubscription_stale_event_not_silent :
    updateSubscriptionInDdb sampleMetadata (some sampleAdmin) (some sampleApp)
      (some sampleBillingUser) sampleStaleEvent true (some "acct_1") =
      (WebhookOutcome.raised conditionalCheckFailedMessage, some sampleBillingUser) ∧
    (updateSubscriptionInDdb sampleMetadata (some sampleAdmin) (some sampleApp)
      (some sampleBillingUser) sampleStaleEvent true (some "acct_1")).1 ≠
      WebhookOutcome.returnedNormally :=
  ⟨rfl, by decide⟩

/-- Claim C1 amended: a stale billing event — one whose timestamp is not strictly
greater than the stored stripe-event-timestamp — that passes every metadata
and integrity check leaves the user record unchanged, but the failed
conditional write is re-raised to the webhook caller rather than returning
normally; only the named metadata and integrity failures are swallowed. -/
theorem updateSubscription_stale_event_skips_but_raises (metadata : EventMetadata)
    (a : AdminRecord) (ap : AppRecord) (u : UserRecord) (ev : SubscriptionEvent)
    (isProduction : Bool) (stripeAccountId : Option String)
    (uid appId adminId : String)
    (hm1 : metadata.userbaseUserId = some uid)
    (hm2 : metadata.userbaseAppId = some appId)
    (hm3 : metadata.userbaseAdminId = some adminId)
    (hap : ap.adminId = adminId)
    (hup : u.appId = appId)
    (hacct : a.stripeAccountId = stripeAccountId)
    (hplan : (if isProduction then ap.prodSubscriptionPlanId
      else ap.testSubscriptionPlanId) = some ev.planId)
    (t : Int)
    (hts : (stripeFieldsOf u isProduction).stripeEventTimestamp = some t)
    (hstale : ev.eventTimestamp ≤ t) :
    updateSubscriptionInDdb metadata (some a) (some ap) (some u) ev isProduction
      stripeAccountId =
      (WebhookOutcome.raised conditionalCheckFailedMessage, some u) := by
  unfold updateSubscriptionInDdb
  simp only [hm1, hm2, hm3]
  rw [if_neg (by simp [hap]), if_neg (by simp [hup]), if_neg (by simp [hacct]),
    if_neg (by cases isProduction <;> simp_all),
    updateStripeSubscription_stale_fails u u.userId ev isProduction t hts hstale]

/-- Witness for the amended C1 at the concrete stale replay. -/
theorem updateSubscription_stale_event_skips_but_raises_witness :
    (stripeFieldsOf sampleBillingUser true).stripeEventTimestamp = some 100 ∧
    updateSubscriptionInDdb sampleMetadata (some sampleAdmin) (some sampleApp)
      (some sampleBillingUser) sampleStaleEvent true (some "acct_1") =
      (WebhookOutcome.raised conditionalCheckFailedMessage, some sampleBillingUser) :=
  ⟨rfl,
    updateSubscription_stale_event_skips_but_raises sampleMetadata sampleAdmin
      sampleApp sampleBillingUser sampleStaleEvent true (some "acct_1")
      "user-3" "app-1" "admin-1" rfl rfl rfl rfl rfl rfl rfl 100 rfl (by decide)⟩

/-- A user who enrolled a public key but whose stored item has already had
the bootstrap flag cleared by a competing validation. -/
def seedValidationUser : UserRecord :=
  { username := "dave", appId := "app-2", userId := "user-4",
    passwordTokenHash := sha256hash "x", publicKey := "pk-dave",
    seedNotSavedYet := true }

/-- Claim C2 counterexample: a plaintext mismatch answers Unauthorized with the
message Failed to validate key, while a failed seed-commit conditional
write answers Unauthorized with the message Invalid seed — two failing runs
of validateKey with observably different error responses. -/
theorem validateKey_failures_distinguishable :
    (validateKey "msg" "other" sampleAdmin sampleApp seedValidationUser
      (some seedValidationUser)).1 =
      ValidateKeyResponse.failure 401 "Failed to validate key" ∧
    (validateKey "msg" "msg" sampleAdmin sampleApp seedValidationUser
      (some { seedValidationUser with seedNotSavedYet := false })).1 =
      ValidateKeyResponse.failure 401 "Invalid seed" ∧
    ValidateKeyResponse.failure 401 "Failed to validate key" ≠
      ValidateKeyResponse.failure 401 "Invalid seed" :=
  ⟨rfl, rfl, by decide⟩

/-- Claim C2 amended: both failure steps of validateKey answer with the same
Unauthorized status 401, but with different message strings — Failed to
validate key for the plaintext comparison, Invalid seed for the failed
seed-commit conditional write — so the failing step is distinguishable by
message though not by status. -/
theorem validateKey_failure_responses (validationMessage userProvided : String)
    (admin : AdminRecord) (app : AppRecord) (user : UserRecord)
    (stored : Option UserRecord) :
    (validationMessage ≠ userProvided →
      (validateKey validationMessage userProvided admin app user stored).1 =
        ValidateKeyResponse.failure 401 "Failed to validate key") ∧
    (validationMessage = userProvided → user.seedNotSavedYet = true →
      userSavedSeedCondition stored user.userId user.publicKey = false →
      (validateKey validationMessage userProvided admin app user stored).1 =
        ValidateKeyResponse.failure 401 "Invalid seed") := by
  constructor
  · intro hne
    unfold validateKey
    rw [if_neg hne]
  · intro heq hseed hcond
    unfold validateKey
    rw [if_pos heq, if_pos hseed, if_neg (by simp [hcond])]

/-- Witness for the amended C2: both concrete failure responses. -/
theorem validateKey_failure_responses_witness :
    ("msg" : String) ≠ "other" ∧
    (validateKey "msg" "other" sampleAdmin sampleApp seedValidationUser
      (some seedValidationUser)).1 =
      ValidateKeyResponse.failure 401 "Failed to validate key" ∧
    (validateKey "msg" "msg" sampleAdmin sampleApp seedValidationUser
      (some { seedValidationUser with seedNotSavedYet := false })).1 =
      ValidateKeyResponse.failure 401 "Invalid seed" :=
  ⟨by decide,
    (validateKey_failure_responses "msg" "other" sampleAdmin sampleApp
      seedValidationUser (some seedValidationUser)).1 (by decide),
    (validateKey_failure_responses "msg" "msg" sampleAdmin sampleApp
      seedValidationUser
      (some { seedValidationUser with seedNotSavedYet := false })).2 rfl rfl
      (by decide)⟩

/-- Unfolding lemma for validatePayment when payments are genuinely gated:
neither disabled mode nor unpaid prod payments apply, so the four payment
errors are tried in order. -/
theorem validatePayment_gated (user : UserRecord) (app : AppRecord)
    (admin : AdminRecord)
    (h1 : ¬(app.paymentsMode ≠ some "prod" ∧ app.paymentsMode ≠ some "test"))
    (h2 : ¬(app.paymentsMode = some "prod" ∧ ¬admin.prodPaymentsEnabled)) :
    validatePayment user app admin =
      if (appEnvSubscriptionPlanId app).isNone then
        Except.error PaymentError.subscriptionPlanNotSet
      else if (userEnvSubscriptionPlanId user app).isNone then
        Except.error PaymentError.subscriptionNotFound
      else if appEnvSubscriptionPlanId app ≠ userEnvSubscriptionPlanId user app then
        Except.error PaymentError.subscribedToIncorrectPlan
      else if userEnvSubscriptionStatus user app ≠ some "active" ∧
          userEnvSubscriptionStatus user app ≠ some "trialing" then
        Except.error
          (PaymentError.subscriptionInactive (userEnvSubscriptionStatus user app))
      else Except.ok () := by
  unfold validatePayment
  rw [if_neg h1, if_neg h2]

/-- Claim C6: validatePayment permits the action exactly when payments are
disabled for the app — mode neither prod nor test, or prod mode without
prod payments enabled — or when the plan id stored on the user for the
active environment equals the plan id configured on the app and the user
subscription status is active or trialing; otherwise it fails with the
first applicable of SubscriptionPlanNotSet, SubscriptionNotFound,
SubscribedToIncorrectPlan, SubscriptionInactive, in that precedence
order. -/
theorem validatePayment_characterization (user : UserRecord) (app : AppRecord)
    (admin : AdminRecord) :
    (((app.paymentsMode ≠ some "prod" ∧ app.paymentsMode ≠ some "test") ∨
        (app.paymentsMode = some "prod" ∧ ¬admin.prodPaymentsEnabled)) →
      validatePayment user app admin = Except.ok ()) ∧
    (((app.paymentsMode = some "prod" ∨ app.paymentsMode = some "test") ∧
        (app.paymentsMode = some "prod" → admin.prodPaymentsEnabled)) →
      ((validatePayment user app admin = Except.ok () ↔
        (∃ p, appEnvSubscriptionPlanId app = some p ∧
          userEnvSubscriptionPlanId user app = some p ∧
          (userEnvSubscriptionStatus user app = some "active" ∨
            userEnvSubscriptionStatus user app = some "trialing"))) ∧
      (appEnvSubscriptionPlanId app = none →
        validatePayment user app admin =
          Except.error PaymentError.subscriptionPlanNotSet) ∧
      (∀ p, appEnvSubscriptionPlanId app = some p →
        userEnvSubscriptionPlanId user app = none →
        validatePayment user app admin =
          Except.error PaymentError.subscriptionNotFound) ∧
      (∀ p q, appEnvSubscriptionPlanId app = some p →
        userEnvSubscriptionPlanId user app = some q → p ≠ q →
        validatePayment user app admin =
          Except.error PaymentError.subscribedToIncorrectPlan) ∧
      (∀ p, appEnvSubscriptionPlanId app = some p →
        userEnvSubscriptionPlanId user app = some p →
        userEnvSubscriptionStatus user app ≠ some "active" →
        userEnvSubscriptionStatus user app ≠ some "trialing" →
        validatePayment user app admin =
          Except.error
            (PaymentError.subscriptionInactive (userEnvSubscriptionStatus user app))))) := by
  constructor
  · intro h
    rcases h with h | h
    · unfold validatePayment
      rw [if_pos h]
    · unfold validatePayment
      rw [if_neg (by simp [h.1]), if_pos h]
  · intro hgated
    have h1 : ¬(app.paymentsMode ≠ some "prod" ∧ app.paymentsMode ≠ some "test") := by
      tauto
    have h2 : ¬(app.paymentsMode = some "prod" ∧ ¬admin.prodPaymentsEnabled) := by
      tauto
    have hg := validatePayment_gated user app admin h1 h2
    refine ⟨?_, ?_, ?_, ?_, ?_⟩
    · rw [hg]
      cases happ : appEnvSubscriptionPlanId app with
      | none => simp [happ]
      | some p =>
        cases hup : userEnvSubscriptionPlanId user app with
        | none => simp [happ, hup]
        | some q =>
          rw [if_neg (by simp [happ]), if_neg (by simp [hup])]
          by_cases hpq : p = q
          · subst hpq
            rw [if_neg (by simp [happ, hup])]
            by_cases hst : userEnvSubscriptionStatus user app = some "active" ∨
                userEnvSubscriptionStatus user app = some "trialing"
            · rw [if_neg (by tauto)]
              exact iff_of_true rfl ⟨p, rfl, rfl, hst⟩
            · rw [if_pos (by tauto)]
              constructor
              · intro h
                exact absurd h (by simp)
              · intro ⟨p', hp', hq', hs'⟩
                exact absurd hs' hst
          · rw [if_pos (by simp [happ, hup, hpq])]
            constructor
            · intro h
              exact absurd h (by simp)
            · intro ⟨p', hp', hq', _⟩
              injection hp' with e1
              injection hq' with e2
              exact absurd (e1.trans e2.symm) hpq
    · intro happ
      rw [hg, if_pos (by simp [happ])]
    · intro p happ hup
      rw [hg, if_neg (by simp [happ]), if_pos (by simp [hup])]
    · intro p q happ hup hpq
      rw [hg, if_neg (by simp [happ]), if_neg (by simp [hup]),
        if_pos (by simp [happ, hup, hpq])]
    · intro p happ hup hact htri
      rw [hg, if_neg (by simp [happ]), if_neg (by simp [hup]),
        if_neg (by simp [happ, hup]), if_pos ⟨hact, htri⟩]

/-- A concrete user subscribed to the plan of sampleApp but with status
past_due. -/
def pastDueUser : UserRecord :=
  { username := "frank", appId := "app-1", userId := "user-6",
    passwordTokenHash := sha256hash "t",
    prodStripe := { subscriptionPlanId := some "plan_1",
                    subscriptionStatus := some "past_due" } }

/-- Witness for C6: a past_due subscriber of the correct plan is rejected
with SubscriptionInactive carrying the status. -/
theorem validatePayment_characterization_witness :
    validatePayment pastDueUser sampleApp sampleAdmin =
      Except.error (PaymentError.subscriptionInactive (some "past_due")) :=
  ((validatePayment_characterization pastDueUser sampleApp sampleAdmin).2
    (by constructor
        · exact Or.inl rfl
        · intro _
          rfl)).2.2.2.2 "plan_1" rfl rfl (by decide) (by decide)

/-- Claim C10: signing out any non-empty session id succeeds, also when no session
item with that id exists — the invalidation update is an upsert that leaves
an invalidated item under the id. -/
theorem signOut_succeeds_even_for_unknown_session (sessions : SessionStore)
    (sessionId : String) (h : sessionId ≠ "") :
    (signOut sessions sessionId).1 = SignOutResponse.success "Success!" ∧
    (∀ s, (signOut sessions sessionId).2 sessionId = some s →
      s.invalidated = true) ∧
    ((signOut sessions sessionId).2 sessionId).isSome := by
  unfold signOut
  rw [if_neg h]
  refine ⟨rfl, ?_, ?_⟩
  · intro s hs
    simp only [if_pos rfl] at hs
    cases hold : sessions sessionId with
    | some s0 =>
      rw [hold] at hs
      cases hs
      rfl
    | none =>
      rw [hold] at hs
      cases hs
      rfl
  · simp only [if_pos rfl]
    cases sessions sessionId <;> simp

/-- Witness for C10: signing out an id absent from an empty session store. -/
theorem signOut_succeeds_even_for_unknown_session_witness :
    ("session-1" : String) ≠ "" ∧
    (signOut (fun _ => none) "session-1").1 = SignOutResponse.success "Success!" :=
  ⟨by decide,
    (signOut_succeeds_even_for_unknown_session (fun _ => none) "session-1"
      (by decide)).1⟩

/-- The user item built at sign-up carries the supplied app id. -/
theorem buildSignUpParams_appId (username passwordToken appId userId publicKey :
    String) (psalts : PasswordSalts) (ksalts : KeySalts) (email : Option String)
    (profile : Option (List (String × String))) (backup : PasswordBasedBackup)
    (now : Int) :
    (buildSignUpParams username passwordToken appId userId publicKey psalts ksalts
      email profile backup now).appId = appId := rfl

/-- The user item built at sign-up carries the case-folded username. -/
theorem buildSignUpParams_username (username passwordToken appId userId publicKey :
    String) (psalts : PasswordSalts) (ksalts : KeySalts) (email : Option String)
    (profile : Option (List (String × String))) (backup : PasswordBasedBackup)
    (now : Int) :
    (buildSignUpParams username passwordToken appId userId publicKey psalts ksalts
      email profile backup now).username = username.toLower := rfl

/-- A sign-up input that passes validation has nonblank required items and a
valid username. -/
theorem validateSignUpInput_none_implies (appId username passwordToken publicKey :
    String) (psalts : PasswordSalts) (ksalts : KeySalts)
    (backup : PasswordBasedBackup) (email : Option String)
    (profile : Option (List (String × String)))
    (h : validateSignUpInput appId username passwordToken publicKey psalts ksalts
      backup email profile = none) :
    ¬(appId = "" ∨ username = "" ∨ passwordToken = "" ∨ publicKey = "") ∧
    validateUsernameInput username = none := by
  unfold validateSignUpInput at h
  by_cases c1 : appId = "" ∨ username = "" ∨ passwordToken = "" ∨ publicKey = ""
  · rw [if_pos c1] at h
    cases h
  · rw [if_neg c1] at h
    refine ⟨c1, ?_⟩
    by_cases c2 : psalts.passwordSalt = "" ∨ psalts.passwordTokenSalt = "" ∨
        ksalts.encryptionKeySalt = "" ∨ ksalts.dhKeySalt = "" ∨
        ksalts.hmacKeySalt = ""
    · rw [if_pos c2] at h
      cases h
    · rw [if_neg c2] at h
      by_cases c3 : backup.passwordBasedEncryptionKeySalt = "" ∨
          backup.passwordEncryptedSeed = ""
      · rw [if_pos c3] at h
        cases h
      · rw [if_neg c3] at h
        cases hu : validateUsernameInput username with
        | none => rfl
        | some e =>
          rw [hu] at h
          cases h

/-- A freshly signed-up record — attempts attribute absent, stored hash equal
to the hash of the supplied token — passes the password check with the
permanent password. -/
theorem validatePassword_fresh (passwordToken : String) (u : UserRecord)
    (now : Int)
    (hattempts : u.incorrectPasswordAttemptsInRow = none)
    (hhash : u.passwordTokenHash = sha256hash passwordToken) :
    validatePassword passwordToken (some u) now =
      (Except.ok false, some (allowUserToRetryPassword u)) := by
  rw [validatePassword_some, if_neg (by rw [hattempts]; decide)]
  unfold checkPasswordHashes
  rw [if_pos hhash.symm]

/-- Evaluation lemma for a successful sign-in: under passing validation, a
live app and admin, a stored user whose password check succeeds and who is
not pending deletion, signIn answers with the assembled response. -/
theorem signIn_evaluates (users : UserStore) (ap : AppRecord) (a : AdminRecord)
    (appId username passwordToken sid tok : String) (now : Int) (u : UserRecord)
    (usedTemp : Bool)
    (hne : ¬(appId = "" ∨ username = "" ∨ passwordToken = ""))
    (hun : validateUsernameInput username = none)
    (hap : ap.deleted = false) (ha : a.deleted = false)
    (hu : users appId username.toLower = some u)
    (hvp : (validatePassword passwordToken (some u) now).1 = Except.ok usedTemp)
    (hdel : u.deleted = false) :
    signIn users (some ap) (some a) appId username passwordToken sid tok now =
      Except.ok (buildSignInResult u usedTemp sid tok now) := by
  rcases hsplit : validatePassword passwordToken (some u) now with ⟨r1, r2⟩
  rw [hsplit] at hvp
  simp only at hvp
  subst hvp
  unfold signIn
  rw [if_neg hne]
  simp only [hun, hu, hap, ha, hsplit]
  simp [hdel]

/-- Evaluation lemma for sign-up past validation, app and admin resolution
and the trial limit: everything then hinges on the conditional put. -/
theorem signUp_reduces (users : UserStore) (sessions : SessionStore)
    (ap : AppRecord) (a : AdminRecord) (n : Nat)
    (appId username passwordToken publicKey : String)
    (psalts : PasswordSalts) (ksalts : KeySalts) (backup : PasswordBasedBackup)
    (email : Option String) (profile : Option (List (String × String)))
    (uid sid tok : String) (now : Int)
    (hval : validateSignUpInput appId username passwordToken publicKey psalts
      ksalts backup email profile = none)
    (hap : ap.deleted = false) (ha : a.deleted = false)
    (hsub : validateSubscription a.stripeSaasSubscriptionStatus
      a.stripeCancelSaasSubscriptionAt n = true) :
    signUp users sessions (some ap) (some a) n appId username passwordToken
      publicKey psalts ksalts backup email profile uid sid tok now =
      (match signUpPut users (buildSignUpParams username passwordToken appId uid
          publicKey psalts ksalts email profile backup now) with
        | Except.error DdbError.conditionalCheckFailed =>
          Except.error ⟨409, "UsernameAlreadyExists"⟩
        | Except.ok users' =>
          Except.ok (⟨uid, sid, tok, now⟩, users',
            createSession sessions sid tok uid appId now)) := by
  unfold signUp
  simp only [hval, hap, ha, hsub]
  simp

/-- Claim C7: for a sign-up whose input validates against a live app and admin
within the trial limit, targeting a (appId, username) pair that already
holds a record — when that record has completed enrollment (the
seed-not-saved-yet flag is unset) the sign-up fails with the Conflict
UsernameAlreadyExists and no write happens; when the record still carries
the flag the sign-up succeeds and the slot now holds the newly built user
with the fresh user id and the supplied key material. -/
theorem signUp_overwrite_gated_by_seedNotSavedYet (users : UserStore)
    (sessions : SessionStore) (ap : AppRecord) (a : AdminRecord) (n : Nat)
    (appId username passwordToken publicKey : String)
    (psalts : PasswordSalts) (ksalts : KeySalts) (backup : PasswordBasedBackup)
    (email : Option String) (profile : Option (List (String × String)))
    (uid sid tok : String) (now : Int)
    (hval : validateSignUpInput appId username passwordToken publicKey psalts
      ksalts backup email profile = none)
    (hap : ap.deleted = false) (ha : a.deleted = false)
    (hsub : validateSubscription a.stripeSaasSubscriptionStatus
      a.stripeCancelSaasSubscriptionAt n = true) :
    (∀ ex, users appId username.toLower = some ex → ex.seedNotSavedYet = false →
      signUp users sessions (some ap) (some a) n appId username passwordToken
        publicKey psalts ksalts backup email profile uid sid tok now =
        Except.error ⟨409, "UsernameAlreadyExists"⟩) ∧
    (∀ ex, users appId username.toLower = some ex → ex.seedNotSavedYet = true →
      signUp users sessions (some ap) (some a) n appId username passwordToken
        publicKey psalts ksalts backup email profile uid sid tok now =
        Except.ok (⟨uid, sid, tok, now⟩,
          putUser users (buildSignUpParams username passwordToken appId uid
            publicKey psalts ksalts email profile backup now),
          createSession sessions sid tok uid appId now) ∧
      putUser users (buildSignUpParams username passwordToken appId uid publicKey
          psalts ksalts email profile backup now) appId username.toLower =
        some (buildSignUpParams username passwordToken appId uid publicKey psalts
          ksalts email profile backup now) ∧
      (buildSignUpParams username passwordToken appId uid publicKey psalts ksalts
        email profile backup now).userId = uid ∧
      (buildSignUpParams username passwordToken appId uid publicKey psalts ksalts
        email profile backup now).publicKey = publicKey ∧
      (buildSignUpParams username passwordToken appId uid publicKey psalts ksalts
        email profile backup now).seedNotSavedYet = true) := by
  constructor
  · intro ex hex hflag
    rw [signUp_reduces users sessions ap a n appId username passwordToken publicKey
      psalts ksalts backup email profile uid sid tok now hval hap ha hsub]
    have hput : signUpPut users (buildSignUpParams username passwordToken appId uid
        publicKey psalts ksalts email profile backup now) =
        Except.error DdbError.conditionalCheckFailed := by
      have hkey : users (buildSignUpParams username passwordToken appId uid
          publicKey psalts ksalts email profile backup now).appId
          (buildSignUpParams username passwordToken appId uid publicKey psalts
            ksalts email profile backup now).username = some ex := hex
      unfold signUpPut
      rw [if_neg]
      rw [hkey]
      simp [signUpConditionOk, hflag]
    rw [hput]
  · intro ex hex hflag
    rw [signUp_reduces users sessions ap a n appId username passwordToken publicKey
      psalts ksalts backup email profile uid sid tok now hval hap ha hsub]
    have hput : signUpPut users (buildSignUpParams username passwordToken appId uid
        publicKey psalts ksalts email profile backup now) =
        Except.ok (putUser users (buildSignUpParams username passwordToken appId uid
          publicKey psalts ksalts email profile backup now)) := by
      have hkey : users (buildSignUpParams username passwordToken appId uid
          publicKey psalts ksalts email profile backup now).appId
          (buildSignUpParams username passwordToken appId uid publicKey psalts
            ksalts email profile backup now).username = some ex := hex
      unfold signUpPut
      rw [if_pos]
      rw [hkey]
      simp [signUpConditionOk, hflag]
    rw [hput]
    refine ⟨rfl, ?_, rfl, rfl, rfl⟩
    unfold putUser
    rw [if_pos ⟨rfl, rfl⟩]

/-- A concrete unenrolled occupant of the slot the C7 witness signs up
into. -/
def unenrolledUser : UserRecord :=
  { username := "grace", appId := "app-4", userId := "user-7",
    passwordTokenHash := sha256hash "old-token", seedNotSavedYet := true }

/-- A concrete user store holding only the unenrolled occupant, keyed under
the case-folded username as the sign-up put would store it. -/
def unenrolledUsers : UserStore :=
  fun appId username =>
    if appId = "app-4" ∧ username = "grace".toLower then some unenrolledUser
    else none

/-- A concrete live app for the sign-up and sign-in witnesses. -/
def liveApp : AppRecord := { appId := "app-4", adminId := "admin-4" }

/-- A concrete live admin with an active SaaS subscription. -/
def liveAdmin : AdminRecord :=
  { adminId := "admin-4", stripeSaasSubscriptionStatus := some "active" }

/-- The sign-up salts used by the witnesses. -/
def sampleSalts : PasswordSalts := { passwordSalt := "ps", passwordTokenSalt := "pts" }

/-- The key salts used by the witnesses. -/
def sampleKeySalts : KeySalts :=
  { encryptionKeySalt := "eks", dhKeySalt := "dhs", hmacKeySalt := "hks" }

/-- The password-based backup used by the witnesses. -/
def sampleBackup : PasswordBasedBackup :=
  { passwordBasedEncryptionKeySalt := "pbe-salt", passwordEncryptedSeed := "enc-seed" }

/-- Witness for C7: signing up over the unenrolled occupant succeeds and the
slot now holds the new user id. -/
theorem signUp_overwrite_gated_by_seedNotSavedYet_witness :
    unenrolledUser.seedNotSavedYet = true ∧
    signUp unenrolledUsers (fun _ => none) (some liveApp) (some liveAdmin) 0
      "app-4" "grace" "new-token" "pk-new" sampleSalts sampleKeySalts sampleBackup
      none none "user-8" "sid-7" "tok-7" 50 =
      Except.ok (⟨"user-8", "sid-7", "tok-7", 50⟩,
        putUser unenrolledUsers (buildSignUpParams "grace" "new-token" "app-4"
          "user-8" "pk-new" sampleSalts sampleKeySalts none none sampleBackup 50),
        createSession (fun _ => none) "sid-7" "tok-7" "user-8" "app-4" 50) :=
  ⟨rfl,
    (((signUp_overwrite_gated_by_seedNotSavedYet unenrolledUsers (fun _ => none)
      liveApp liveAdmin 0 "app-4" "grace" "new-token" "pk-new" sampleSalts
      sampleKeySalts sampleBackup none none "user-8" "sid-7" "tok-7" 50
      rfl rfl rfl rfl).2 unenrolledUser (if_pos ⟨rfl, rfl⟩) rfl)).1⟩

/-- Claim C8: a valid sign-up — validation passing, live app and admin, trial
limit respected, the sign-up put condition holding — returns the fresh user
id, and a subsequent sign-in to the same app with the same username and
password token against the resulting store, with no intervening mutation,
succeeds and returns that same user id. -/
theorem signUp_then_signIn_same_userId (users : UserStore)
    (sessions : SessionStore) (ap : AppRecord) (a : AdminRecord) (n : Nat)
    (appId username passwordToken publicKey : String)
    (psalts : PasswordSalts) (ksalts : KeySalts) (backup : PasswordBasedBackup)
    (email : Option String) (profile : Option (List (String × String)))
    (uid sid tok : String) (now : Int)
    (hval : validateSignUpInput appId username passwordToken publicKey psalts
      ksalts backup email profile = none)
    (hap : ap.deleted = false) (ha : a.deleted = false)
    (hsub : validateSubscription a.stripeSaasSubscriptionStatus
      a.stripeCancelSaasSubscriptionAt n = true)
    (hcond : signUpConditionOk (users appId username.toLower) = true)
    (sid2 tok2 : String) (now2 : Int) :
    signUp users sessions (some ap) (some a) n appId username passwordToken
      publicKey psalts ksalts backup email profile uid sid tok now =
      Except.ok (⟨uid, sid, tok, now⟩,
        putUser users (buildSignUpParams username passwordToken appId uid publicKey
          psalts ksalts email profile backup now),
        createSession sessions sid tok uid appId now) ∧
    signIn (putUser users (buildSignUpParams username passwordToken appId uid
        publicKey psalts ksalts email profile backup now)) (some ap) (some a)
      appId username passwordToken sid2 tok2 now2 =
      Except.ok (buildSignInResult (buildSignUpParams username passwordToken appId
        uid publicKey psalts ksalts email profile backup now) false sid2 tok2 now2) ∧
    (buildSignInResult (buildSignUpParams username passwordToken appId uid
      publicKey psalts ksalts email profile backup now) false sid2 tok2 now2).userId =
      uid := by
  obtain ⟨hne4, hun⟩ := validateSignUpInput_none_implies appId username
    passwordToken publicKey psalts ksalts backup email profile hval
  refine ⟨?_, ?_, rfl⟩
  · rw [signUp_reduces users sessions ap a n appId username passwordToken publicKey
      psalts ksalts backup email profile uid sid tok now hval hap ha hsub]
    have hcond' : signUpConditionOk (users (buildSignUpParams username
        passwordToken appId uid publicKey psalts ksalts email profile backup
        now).appId (buildSignUpParams username passwordToken appId uid publicKey
        psalts ksalts email profile backup now).username) = true := hcond
    unfold signUpPut
    rw [if_pos hcond']
  · have hlookup : putUser users (buildSignUpParams username passwordToken appId
        uid publicKey psalts ksalts email profile backup now) appId
        username.toLower =
        some (buildSignUpParams username passwordToken appId uid publicKey psalts
          ksalts email profile backup now) := by
      unfold putUser
      rw [if_pos ⟨rfl, rfl⟩]
    exact signIn_evaluates _ ap a appId username passwordToken sid2 tok2 now2 _
      false (by tauto) hun hap ha hlookup
      (by rw [validatePassword_fresh passwordToken _ now2 rfl rfl]) rfl

/-- Witness for C8: signing up into an empty store and signing back in with
the same credentials yields the same fresh user id. -/
theorem signUp_then_signIn_same_userId_witness :
    signUpConditionOk ((fun _ _ => none : UserStore) "app-4" "grace".toLower) =
      true ∧
    signIn (putUser (fun _ _ => none) (buildSignUpParams "grace" "new-token"
        "app-4" "user-8" "pk-new" sampleSalts sampleKeySalts none none
        sampleBackup 50)) (some liveApp) (some liveAdmin)
      "app-4" "grace" "new-token" "sid-8" "tok-8" 60 =
      Except.ok (buildSignInResult (buildSignUpParams "grace" "new-token" "app-4"
        "user-8" "pk-new" sampleSalts sampleKeySalts none none sampleBackup 50)
        false "sid-8" "tok-8" 60) ∧
    (buildSignInResult (buildSignUpParams "grace" "new-token" "app-4" "user-8"
      "pk-new" sampleSalts sampleKeySalts none none sampleBackup 50)
      false "sid-8" "tok-8" 60).userId = "user-8" :=
  ⟨rfl,
    (signUp_then_signIn_same_userId (fun _ _ => none) (fun _ => none) liveApp
      liveAdmin 0 "app-4" "grace" "new-token" "pk-new" sampleSalts sampleKeySalts
      sampleBackup none none "user-8" "sid-7" "tok-7" 50 rfl rfl rfl rfl rfl
      "sid-8" "tok-8" 60).2.1,
    (signUp_then_signIn_same_userId (fun _ _ => none) (fun _ => none) liveApp
      liveAdmin 0 "app-4" "grace" "new-token" "pk-new" sampleSalts sampleKeySalts
      sampleBackup none none "user-8" "sid-7" "tok-7" 50 rfl rfl rfl rfl rfl
      "sid-8" "tok-8" 60).2.2⟩

/-- Claim C9: a successful sign-in response contains the password-based backup
exactly when the permanent password was used and both backup attributes are
present on the record; in particular a sign-in through the temp password
omits the backup even when both attributes are stored. -/
theorem signIn_passwordBasedBackup_exact (users : UserStore) (ap : AppRecord)
    (a : AdminRecord) (appId username passwordToken sid tok : String) (now : Int)
    (r : SignInResult) (u : UserRecord)
    (hu : users appId username.toLower = some u)
    (h : signIn users (some ap) (some a) appId username passwordToken sid tok
      now = Except.ok r) :
    (r.passwordBasedBackup.isSome ↔
      (r.usedTempPassword = false ∧ u.passwordBasedEncryptionKeySalt.isSome ∧
        u.passwordEncryptedSeed.isSome)) ∧
    (r.usedTempPassword = true → r.passwordBasedBackup = none) := by
  unfold signIn at h
  simp only [hu] at h
  repeat' split at h
  all_goals try exact Except.noConfusion h
  rename_i usedTempPassword snd heq hdel
  injection h with h
  subst h
  cases usedTempPassword with
  | true =>
    refine ⟨?_, fun _ => rfl⟩
    simp [buildSignInResult]
  | false =>
    refine ⟨?_, by intro hcontra; cases hcontra⟩
    cases hpbe : u.passwordBasedEncryptionKeySalt with
    | none => simp [buildSignInResult, hpbe]
    | some salt =>
      cases hpes : u.passwordEncryptedSeed with
      | none => simp [buildSignInResult, hpbe, hpes]
      | some seed => simp [buildSignInResult, hpbe, hpes]

/-- A concrete user holding a valid temp password token and both backup
attributes. -/
def backupUser : UserRecord :=
  { username := "henry", appId := "app-4", userId := "user-9",
    passwordTokenHash := sha256hash "perm-token",
    tempPasswordTokenHash := some (sha256hash "temp-token"),
    tempPasswordCreationDate := 0,
    passwordBasedEncryptionKeySalt := some "pbe-salt",
    passwordEncryptedSeed := some "enc-seed" }

/-- A concrete user store holding only that user under the case-folded
username. -/
def backupUsers : UserStore :=
  fun appId username =>
    if appId = "app-4" ∧ username = "henry".toLower then some backupUser else none

/-- Witness for C9: a sign-in through the still-valid temp password omits
the password-based backup although both backup attributes are stored. -/
theorem signIn_passwordBasedBackup_exact_witness :
    backupUser.passwordBasedEncryptionKeySalt.isSome = true ∧
    backupUser.passwordEncryptedSeed.isSome = true ∧
    (buildSignInResult backupUser true "sid-9" "tok-9" 5).usedTempPassword = true ∧
    (buildSignInResult backupUser true "sid-9" "tok-9" 5).passwordBasedBackup =
      none :=
  ⟨rfl, rfl, rfl,
    (signIn_passwordBasedBackup_exact backupUsers liveApp liveAdmin "app-4"
      "henry" "temp-token" "sid-9" "tok-9" 5
      (buildSignInResult backupUser true "sid-9" "tok-9" 5) backupUser
      (if_pos ⟨rfl, rfl⟩)
      (signIn_evaluates backupUsers liveApp liveAdmin "app-4" "henry"
        "temp-token" "sid-9" "tok-9" 5 backupUser true (by decide) rfl rfl rfl
        (if_pos ⟨rfl, rfl⟩) rfl rfl)).2 rfl⟩

end Userbase
